import Mathlib

/-!
Verification development for the Swedbank ISO 20022 pain.001.001.03 credit
transfer module (`account_iso20022_swedbank`).

The Python source is shallowly embedded as executable Lean definitions:
  * strings are `String` / `List Char`; an unset (`False`/`None`/empty) Odoo
    `Char` field is modelled as `none` of an `Option String`;
  * monetary amounts are exact integers in cents (the data model declares
    amounts as 2-decimal-digit precision decimals), and the `'%.2f'`
    formatting of the source is `formatAmount`;
  * the lxml element tree is the inductive type `Xml` (tag, attributes,
    text, children); the document namespace map becomes `xmlns` attributes;
  * wall-clock timestamps (`datetime.now()`) are abstracted as an opaque
    `now : String` parameter, and `str(uuid.uuid4())` drawn for a payment's
    fallback end-to-end id is the payment's `fallback_uuid` field;
  * raising `UserError` / returning normally is `Except SwedError`;
  * stored computed fields (`swedbank_account_type`) are read through their
    compute function, which is what `store=True` recomputation guarantees.
-/

/-! ## Character sets and replacement map (module-level constants) -/

/-- Swedbank character set for SEPA/ISO20022 messages (`SWEDBANK_LATIN_CHARS`):
upper/lower ASCII letters, digits, and the literal characters
slash hyphen question colon parens dot comma apostrophe plus space. -/
def isSwedbankLatin (c : Char) : Bool :=
  ('a' ≤ c && c ≤ 'z') || ('A' ≤ c && c ≤ 'Z') || ('0' ≤ c && c ≤ '9') ||
  c == '/' || c == '-' || c == '?' || c == ':' || c == '(' || c == ')' ||
  c == '.' || c == ',' || c == '\'' || c == '+' || c == ' '

/-- Additional Swedish characters allowed for domestic payments
(`SWEDISH_LOCAL_CHARS`). -/
def isSwedishLocal (c : Char) : Bool :=
  c == 'å' || c == 'Å' || c == 'ä' || c == 'Ä' || c == 'ö' || c == 'Ö'

/-- Character replacement map `CHAR_REPLACEMENT_MAP` of the source, as an
association list (Python dict iteration is irrelevant: lookup is by key). -/
def CHAR_REPLACEMENT_MAP : List (Char × String) :=
  [('à', "a"), ('á', "a"), ('â', "a"), ('ã', "a"), ('ä', "a"), ('æ', "ae"),
   ('ç', "c"), ('è', "e"), ('é', "e"), ('ê', "e"), ('ë', "e"),
   ('ì', "i"), ('í', "i"), ('î', "i"), ('ï', "i"),
   ('ñ', "n"), ('ò', "o"), ('ó', "o"), ('ô', "o"), ('õ', "o"), ('ö', "o"), ('ø', "o"),
   ('ù', "u"), ('ú', "u"), ('û', "u"), ('ü', "u"), ('ý', "y"), ('ÿ', "y"),
   ('ß', "ss"), ('œ', "oe"),
   ('À', "A"), ('Á', "A"), ('Â', "A"), ('Ã', "A"), ('Ä', "A"), ('Æ', "AE"),
   ('Ç', "C"), ('È', "E"), ('É', "E"), ('Ê', "E"), ('Ë', "E"),
   ('Ì', "I"), ('Í', "I"), ('Î', "I"), ('Ï', "I"),
   ('Ñ', "N"), ('Ò', "O"), ('Ó', "O"), ('Ô', "O"), ('Õ', "O"), ('Ö', "O"), ('Ø', "O"),
   ('Ù', "U"), ('Ú', "U"), ('Û', "U"), ('Ü', "U"), ('Ý', "Y"),
   ('Œ', "OE")]

/-- Lookup in `CHAR_REPLACEMENT_MAP` (Python `char in CHAR_REPLACEMENT_MAP`
followed by `CHAR_REPLACEMENT_MAP[char]`). -/
def charReplacement (c : Char) : Option String :=
  (CHAR_REPLACEMENT_MAP.find? (fun p => p.1 == c)).map Prod.snd

/-- Python `str.lower` on one character, modelled on the characters on which
the subsequent map lookup can succeed: ASCII uppercase, the Latin-1
uppercase letters, and the two uppercase letters whose lowercase forms are
map keys while they themselves are not ('Ÿ' and 'ẞ'); identity elsewhere.
For every other character the real lowercase form is not a key of
`CHAR_REPLACEMENT_MAP`, so the identity default cannot change which branch
of the sanitizer fires. -/
def pyLower (c : Char) : Char :=
  if 'A' ≤ c && c ≤ 'Z' then Char.toLower c
  else if 'À' ≤ c && c ≤ 'Þ' && c != '×' then Char.ofNat (c.toNat + 32)
  else if c == 'Ÿ' then 'ÿ'
  else if c == 'ẞ' then 'ß'
  else c

/-- Python `str.isupper` on one character, modelled on the same domain as
`pyLower` (the only characters that can reach the case-restoring branch of
the sanitizer). -/
def pyIsUpper (c : Char) : Bool :=
  ('A' ≤ c && c ≤ 'Z') || ('À' ≤ c && c ≤ 'Þ' && c != '×') || c == 'Ÿ' || c == 'ẞ'

/-- The allowed-character test of `_swedbank_sanitize_text`:
`SWEDBANK_LATIN_CHARS`, extended with `SWEDISH_LOCAL_CHARS` when
`allow_swedish` is set. -/
def allowedChar (allowSwedish : Bool) (c : Char) : Bool :=
  isSwedbankLatin c || (allowSwedish && isSwedishLocal c)

/-- Per-character body of the loop in `_swedbank_sanitize_text`: keep an
allowed character, replace via the map (restoring case through
`char.lower()` / `char.isupper()` / `replacement.upper()`), and silently
drop everything else. Python `replacement.upper()` acts on pure-ASCII map
values, which is `Char.toUpper` per character. -/
def sanitizeChar (allowSwedish : Bool) (c : Char) : List Char :=
  if allowedChar allowSwedish c then [c]
  else
    match charReplacement c with
    | some r => r.data
    | none =>
      match charReplacement (pyLower c) with
      | some r => if pyIsUpper c then r.data.map Char.toUpper else r.data
      | none => []

/-- The `result` list accumulated by the character loop of
`_swedbank_sanitize_text`, already joined. -/
def sanitizeAccum (allowSwedish : Bool) (text : List Char) : List Char :=
  text.flatMap (sanitizeChar allowSwedish)

/-- Python `'//' in s`. -/
def hasDoubleSlash : List Char → Bool
  | c :: d :: rest => (c == '/' && d == '/') || hasDoubleSlash (d :: rest)
  | _ => false

/-- Python `s.replace('//', '/')`: one left-to-right pass replacing
non-overlapping occurrences. -/
def replaceDoubleSlash : List Char → List Char
  | c :: d :: rest =>
    if c == '/' && d == '/' then '/' :: replaceDoubleSlash rest
    else c :: replaceDoubleSlash (d :: rest)
  | l => l

theorem replaceDoubleSlash_length_le (l : List Char) :
    (replaceDoubleSlash l).length ≤ l.length := by
  induction l using replaceDoubleSlash.induct with
  | case1 c d rest h ih =>
    simp only [replaceDoubleSlash, if_pos h, List.length_cons]
    omega
  | case2 c d rest h ih =>
    simp only [List.length_cons] at ih
    simp only [replaceDoubleSlash, if_neg h, List.length_cons]
    omega
  | case3 l h =>
    cases l with
    | nil => simp [replaceDoubleSlash]
    | cons c tl =>
      cases tl with
      | nil => simp [replaceDoubleSlash]
      | cons d rest => exact absurd rfl (h c d rest)

theorem replaceDoubleSlash_length_lt :
    ∀ l : List Char, hasDoubleSlash l = true →
      (replaceDoubleSlash l).length < l.length := by
  intro l
  induction l using replaceDoubleSlash.induct with
  | case1 c d rest hc ih =>
    intro _
    have hle := replaceDoubleSlash_length_le rest
    simp only [replaceDoubleSlash, if_pos hc, List.length_cons]
    omega
  | case2 c d rest hc ih =>
    intro hds
    have hds' : hasDoubleSlash (d :: rest) = true := by
      simp only [hasDoubleSlash, Bool.or_eq_true] at hds
      rcases hds with h1 | h1
      · exact absurd h1 hc
      · exact h1
    have hlt := ih hds'
    simp only [List.length_cons] at hlt
    simp only [replaceDoubleSlash, if_neg hc, List.length_cons]
    omega
  | case3 l hl =>
    intro hds
    cases l with
    | nil => simp [hasDoubleSlash] at hds
    | cons c tl =>
      cases tl with
      | nil => simp [hasDoubleSlash] at hds
      | cons d rest => exact absurd rfl (hl c d rest)

/-- The `while '//' in sanitized:` loop of `_swedbank_sanitize_text`, with
an explicit fuel so that the definition is structurally recursive and
computes by reduction. Each iteration strictly shrinks the list
(`replaceDoubleSlash_length_lt`), so `l.length` steps always reach the
loop's fixpoint. -/
def collapseDoubleSlashFuel : Nat → List Char → List Char
  | 0, l => l
  | fuel + 1, l =>
    if hasDoubleSlash l then collapseDoubleSlashFuel fuel (replaceDoubleSlash l)
    else l

/-- The `while '//' in sanitized:` loop of `_swedbank_sanitize_text`. -/
def collapseDoubleSlash (l : List Char) : List Char :=
  collapseDoubleSlashFuel l.length l

/-- `_swedbank_sanitize_text(text, max_length, allow_swedish)` on the
character list of the input (argument order follows the source). -/
def swedbank_sanitize_text (text : List Char) (maxLength : Nat) (allowSwedish : Bool) :
    List Char :=
  if text.isEmpty then []
  else (collapseDoubleSlash (sanitizeAccum allowSwedish text)).take maxLength

/-- Python `s.lstrip('/')`. -/
def lstripSlash (l : List Char) : List Char := l.dropWhile (· == '/')

/-- Python `s.rstrip('/')`. -/
def rstripSlash (l : List Char) : List Char :=
  (l.reverse.dropWhile (· == '/')).reverse

/-- Python `s.strip('/')` (both ends). -/
def stripSlash (l : List Char) : List Char := rstripSlash (lstripSlash l)

/-- `_swedbank_sanitize_id(text, max_length)`: sanitize with the Swedish
extension disabled, strip leading/trailing slash, re-collapse, truncate. -/
def swedbank_sanitize_id (text : List Char) (maxLength : Nat) : List Char :=
  if text.isEmpty then []
  else
    (collapseDoubleSlash
      (stripSlash (swedbank_sanitize_text text maxLength false))).take maxLength

/-- String-level wrapper of `swedbank_sanitize_text`. -/
def sanitizeTextS (s : String) (maxLength : Nat) (allowSwedish : Bool) : String :=
  String.mk (swedbank_sanitize_text s.data maxLength allowSwedish)

/-- String-level wrapper of `swedbank_sanitize_id`. -/
def sanitizeIdS (s : String) (maxLength : Nat) : String :=
  String.mk (swedbank_sanitize_id s.data maxLength)

/-- Does the list start with a slash (Python `s.startswith('/')`)? -/
def startsWithSlash (l : List Char) : Bool := l.head? == some '/'

/-- Does the list end with a slash (Python `s.endswith('/')`)? -/
def endsWithSlash (l : List Char) : Bool := startsWithSlash l.reverse

/-! ## Amounts

Amounts are exact cents; `formatAmount` is the `'%.2f' %` rendering. -/

/-- Two-digit, zero-padded rendering of a number below 100. -/
def pad2 (n : Nat) : String := if n < 10 then "0" ++ toString n else toString n

/-- Rendering of a non-negative amount in cents with exactly two decimals. -/
def formatAmountNat (c : Nat) : String :=
  toString (c / 100) ++ "." ++ pad2 (c % 100)

/-- Python `'%.2f' % amount` for an exact amount in cents. -/
def formatAmount (cents : Int) : String :=
  if cents < 0 then "-" ++ formatAmountNat (-cents).toNat
  else formatAmountNat cents.toNat

/-! ## Data model (immutable views of the host records) -/

/-- A currency record (`res.currency`); only the name is read. -/
structure Currency where
  name : String
deriving DecidableEq

/-- The company of the journal (`res.company`). -/
structure Company where
  id : Nat
  name : String
  street : Option String
  city : Option String
  zip : Option String
  country_code : Option String
  currency : Currency
deriving DecidableEq

/-- The bank of a partner bank account (`res.bank`). -/
structure Bank where
  bic : Option String
  country : Option String
deriving DecidableEq

/-- A creditor bank account (`res.partner.bank`): `acc_type` is the host's
account-type classification (the value "iban" is the one the source
compares against). -/
structure PartnerBank where
  acc_number : Option String
  acc_type : String
  swedbank_clearing_code : Option String
  bank : Option Bank
deriving DecidableEq

/-- The journal's own bank account (debtor account). -/
structure BankAccount where
  id : Nat
  acc_number : Option String
  acc_type : String
  currency : Option Currency
deriving DecidableEq

/-- A creditor partner (`res.partner`). -/
structure Partner where
  name : String
  street : Option String
  zip : Option String
  city : Option String
  country_code : Option String
deriving DecidableEq

/-- A payment instruction (`account.payment`). `amount` is in cents;
`fallback_uuid` models the `str(uuid.uuid4())` drawn when neither `ref`
nor `name` is available for the end-to-end id. The `swedbank_*` selection
fields are the per-payment overrides declared in `account_payment.py`. -/
structure Payment where
  id : Nat
  name : Option String
  partner : Option Partner
  amount : Int
  currency : Currency
  partner_bank : Option PartnerBank
  date : Option String
  ref : Option String
  memo : Option String
  swedbank_service_level : Option String
  swedbank_category_purpose : Option String
  swedbank_charge_bearer : Option String
  fallback_uuid : String
deriving DecidableEq

/-- The journal configuration (`account.journal`). -/
structure Journal where
  id : Nat
  name : String
  swedbank_agreement_id : Option String
  bank_account : Option BankAccount
  swedbank_service_level : Option String
  swedbank_category_purpose : Option String
  swedbank_charge_bearer : Option String
  currency : Option Currency
  company : Company
deriving DecidableEq

/-! ## Account classifier (`res_partner_bank.py`) -/

/-- The values of the `swedbank_account_type` selection. -/
inductive SwedAcctType where
  | iban
  | bban
  | bankgiro
  | plusgiro
deriving DecidableEq

/-- `_compute_swedbank_account_type`: classify from `acc_type`,
`acc_number` and `swedbank_clearing_code`. Normalisation removes spaces and
hyphens; the bankgiro branch requires 7-8 digits and no clearing code, the
plusgiro branch 1-10 digits and clearing code 9960. -/
def compute_swedbank_account_type (pb : PartnerBank) : Option SwedAcctType :=
  if pb.acc_type == "iban" then some SwedAcctType.iban
  else
    match pb.acc_number with
    | none => none
    | some n =>
      if n == "" then none
      else
        let acc := n.data.filter (fun c => c != ' ' && c != '-')
        if (acc.all Char.isDigit && 7 ≤ acc.length && acc.length ≤ 8)
            && pb.swedbank_clearing_code.isNone then
          some SwedAcctType.bankgiro
        else if (acc.all Char.isDigit && 1 ≤ acc.length && acc.length ≤ 10)
            && pb.swedbank_clearing_code == some "9960" then
          some SwedAcctType.plusgiro
        else some SwedAcctType.bban

/-- `_get_swedbank_creditor_agent_clearing`: clearing system and member for
the creditor agent block. -/
def get_swedbank_creditor_agent_clearing (pb : PartnerBank) :
    Option String × Option String :=
  match compute_swedbank_account_type pb with
  | some SwedAcctType.bankgiro => (some "SESBA", some "9900")
  | some SwedAcctType.plusgiro => (some "SESBA", some "9960")
  | _ =>
    match pb.swedbank_clearing_code with
    | some cc => (some "SESBA", some cc)
    | none => (none, none)

/-! ## Errors -/

/-- The `UserError` taxonomy raised by the pipeline; each constructor
carries the data interpolated into the source's message. -/
inductive SwedError where
  | missingAgreementId (journalName : String)
  | missingBankAccount (journalName : String)
  | noPartner (paymentName : Option String)
  | invalidAmount (paymentName : Option String)
  | sepaCurrencyRequired (paymentName : Option String) (currencyName : String)
  | sepaIbanRequired (paymentName : Option String)
  | schemaViolations (shown : List String) (omitted : Nat)
deriving DecidableEq

/-! ## Validators -/

/-- Per-payment body of `_swedbank_validate_payments` (journal side):
partner present, positive amount, EUR when the journal's service level is
SEPA. Note there is no IBAN check here. -/
def swedbank_check_payment (j : Journal) (p : Payment) : Except SwedError Unit :=
  if p.partner.isNone then Except.error (SwedError.noPartner p.name)
  else if p.amount ≤ 0 then Except.error (SwedError.invalidAmount p.name)
  else if j.swedbank_service_level == some "SEPA" && p.currency.name != "EUR" then
    Except.error (SwedError.sepaCurrencyRequired p.name p.currency.name)
  else Except.ok ()

/-- `_swedbank_validate_payments`: fail fast on the first offending
payment, in batch order. -/
def swedbank_validate_payments (j : Journal) : List Payment → Except SwedError Unit
  | [] => Except.ok ()
  | p :: ps =>
    match swedbank_check_payment j p with
    | Except.error e => Except.error e
    | Except.ok _ => swedbank_validate_payments j ps

/-- Per-payment body of `_swedbank_validate_batch`
(`account_batch_payment.py`): like `swedbank_check_payment`, plus the
IBAN requirement on the creditor account under SEPA. -/
def swedbank_check_batch_payment (j : Journal) (p : Payment) : Except SwedError Unit :=
  if p.partner.isNone then Except.error (SwedError.noPartner p.name)
  else if p.amount ≤ 0 then Except.error (SwedError.invalidAmount p.name)
  else if j.swedbank_service_level == some "SEPA" then
    if p.currency.name != "EUR" then
      Except.error (SwedError.sepaCurrencyRequired p.name p.currency.name)
    else
      match p.partner_bank with
      | some pb =>
        if pb.acc_type != "iban" then Except.error (SwedError.sepaIbanRequired p.name)
        else Except.ok ()
      | none => Except.ok ()
  else Except.ok ()

/-- Payment loop of `_swedbank_validate_batch`. -/
def swedbank_validate_batch_payments (j : Journal) :
    List Payment → Except SwedError Unit
  | [] => Except.ok ()
  | p :: ps =>
    match swedbank_check_batch_payment j p with
    | Except.error e => Except.error e
    | Except.ok _ => swedbank_validate_batch_payments j ps

/-- `_swedbank_validate_batch`: agreement id and bank account configured,
then the per-payment checks including the SEPA IBAN requirement. -/
def swedbank_validate_batch (j : Journal) (payments : List Payment) :
    Except SwedError Unit :=
  if j.swedbank_agreement_id.isNone then
    Except.error (SwedError.missingAgreementId j.name)
  else if j.bank_account.isNone then
    Except.error (SwedError.missingBankAccount j.name)
  else swedbank_validate_batch_payments j payments

/-! ## XML tree -/

/-- An lxml element: tag, attributes, text, children. -/
inductive Xml where
  | mk (tag : String) (attrs : List (String × String)) (text : Option String)
      (children : List Xml)

/-- Tag of an element. -/
def Xml.tag : Xml → String
  | Xml.mk t _ _ _ => t

/-- Attributes of an element. -/
def Xml.attrs : Xml → List (String × String)
  | Xml.mk _ a _ _ => a

/-- Text of an element. -/
def Xml.text : Xml → Option String
  | Xml.mk _ _ tx _ => tx

/-- Children of an element. -/
def Xml.children : Xml → List Xml
  | Xml.mk _ _ _ ch => ch

/-- Element with children only. -/
def el (tag : String) (children : List Xml) : Xml := Xml.mk tag [] none children

/-- Element with text only. -/
def txt (tag : String) (s : String) : Xml := Xml.mk tag [] (some s) []

/-- The pain.001.001.03 namespace of the document. -/
def painNamespace : String := "urn:iso:std:iso:20022:tech:xsd:pain.001.001.03"

/-! ## Document builder (`account_journal.py`) -/

/-- Sum of the amounts of a list of payments
(`sum(payments.mapped('amount'))`), in cents. -/
def sumAmounts (ps : List Payment) : Int := ps.foldl (fun a p => a + p.amount) 0

/-- `_swedbank_get_grp_hdr`. The creation timestamp strings are the opaque
`now`; the agreement id is present whenever the builder reaches this point
(the caller checked it), `getD ""` covers the unreachable case. -/
def swedbank_get_grp_hdr (j : Journal) (now : String) (payments : List Payment) : Xml :=
  el "GrpHdr"
    [txt "MsgId" (sanitizeIdS ("MSG-" ++ toString j.company.id ++ "-" ++ now) 35),
     txt "CreDtTm" now,
     txt "NbOfTxs" (toString payments.length),
     txt "CtrlSum" (formatAmount (sumAmounts payments)),
     el "InitgPty"
       [el "Id"
         [el "OrgId"
           [el "Othr"
             [txt "Id" (j.swedbank_agreement_id.getD ""),
              el "SchmeNm" [txt "Cd" "BANK"]]]]]]

/-- `_swedbank_get_pmt_tp_inf`: the source receives the group's first
payment but reads only the journal's configured defaults. -/
def swedbank_get_pmt_tp_inf (j : Journal) (payment : Option Payment) : Xml :=
  el "PmtTpInf"
    [el "SvcLvl" [txt "Cd" (j.swedbank_service_level.getD "NURG")],
     el "CtgyPurp" [txt "Cd" (j.swedbank_category_purpose.getD "SUPP")]]

/-- `_swedbank_get_dbtr`: company name and postal address. -/
def swedbank_get_dbtr (j : Journal) : Xml :=
  el "Dbtr"
    [txt "Nm" (sanitizeTextS j.company.name 140 true),
     el "PstlAdr"
       ((j.company.country_code.map (fun cc => txt "Ctry" cc)).toList ++
        (j.company.street.map (fun s => txt "AdrLine" (sanitizeTextS s 70 true))).toList ++
        (j.company.city.map (fun s => txt "TwnNm" (sanitizeTextS s 35 true))).toList ++
        (j.company.zip.map (fun s => txt "PstCd" (sanitizeTextS s 16 true))).toList)]

/-- `_swedbank_get_dbtr_acct`: IBAN branch for an IBAN-typed account,
otherwise an `Othr` id with a `BGNR`/`BBAN` scheme, then the settlement
currency resolved from the account, the journal, or the company. -/
def swedbank_get_dbtr_acct (j : Journal) : Xml :=
  let accNum := (j.bank_account.bind (fun b => b.acc_number)).getD ""
  let accType := (j.bank_account.map (fun b => b.acc_type)).getD ""
  let idElem :=
    if accType == "iban" && accNum != "" then
      el "Id" [txt "IBAN" (String.mk ((accNum.data.filter (fun c => c != ' ')).map Char.toUpper))]
    else
      let acc := String.mk (accNum.data.filter (fun c => c != ' ' && c != '-'))
      el "Id"
        [el "Othr"
          [txt "Id" acc,
           el "SchmeNm"
             [if acc.data.length ≤ 8 && (acc != "" && acc.data.all Char.isDigit) then
                txt "Prtry" "BGNR"
              else txt "Cd" "BBAN"]]]
  let ccy :=
    ((j.bank_account.bind (fun b => b.currency)).orElse (fun _ => j.currency)).getD
      j.company.currency
  el "DbtrAcct" [idElem, txt "Ccy" ccy.name]

/-- `_swedbank_get_dbtr_agt`: fixed Swedbank BIC and country. -/
def swedbank_get_dbtr_agt : Xml :=
  el "DbtrAgt"
    [el "FinInstnId"
      [txt "BIC" "SWEDSESS",
       el "PstlAdr" [txt "Ctry" "SE"]]]

/-- `_swedbank_get_cdtr_agt`: absent without a partner bank account;
otherwise optional BIC, clearing-system membership when derivable, and the
postal country from the bank, the partner, or "SE". The repository defines
`_get_swedbank_creditor_agent_clearing` on the bank record, so the
`hasattr` branch of the source is the one taken. -/
def swedbank_get_cdtr_agt (p : Payment) : Option Xml :=
  match p.partner_bank with
  | none => none
  | some pb =>
    let bicElems := ((pb.bank.bind (fun b => b.bic)).map (fun bic => txt "BIC" bic)).toList
    let clearing := get_swedbank_creditor_agent_clearing pb
    let clrElems :=
      match clearing.2 with
      | some mmb =>
        [el "ClrSysMmbId"
          [el "ClrSysId" [txt "Cd" (clearing.1.getD "SESBA")],
           txt "MmbId" mmb]]
      | none => []
    let country :=
      match pb.bank.bind (fun b => b.country) with
      | some cc => cc
      | none =>
        match p.partner.bind (fun pr => pr.country_code) with
        | some cc => cc
        | none => "SE"
    some (el "CdtrAgt"
      [el "FinInstnId" (bicElems ++ clrElems ++ [el "PstlAdr" [txt "Ctry" country]])])

/-- `_swedbank_get_cdtr`: creditor name and postal address. -/
def swedbank_get_cdtr (p : Payment) : Xml :=
  el "Cdtr"
    [txt "Nm" (sanitizeTextS ((p.partner.map (fun pr => pr.name)).getD "") 70 true),
     el "PstlAdr"
       (((p.partner.bind (fun pr => pr.street)).map
           (fun s => txt "StrtNm" (sanitizeTextS s 35 true))).toList ++
        ((p.partner.bind (fun pr => pr.zip)).map
           (fun s => txt "PstCd" (sanitizeTextS s 16 true))).toList ++
        ((p.partner.bind (fun pr => pr.city)).map
           (fun s => txt "TwnNm" (sanitizeTextS s 35 true))).toList ++
        ((p.partner.bind (fun pr => pr.country_code)).map
           (fun cc => txt "Ctry" cc)).toList)]

/-- `_swedbank_get_cdtr_acct`: absent without an account number; IBAN tag
for IBAN-typed accounts, else `Othr` with the scheme from the stored
account classification (`BGNR` for bankgiro, `BBAN` otherwise). -/
def swedbank_get_cdtr_acct (p : Payment) : Option Xml :=
  match p.partner_bank with
  | none => none
  | some pb =>
    match pb.acc_number with
    | none => none
    | some n =>
      if n == "" then none
      else
        let acc := String.mk (n.data.filter (fun c => c != ' ' && c != '-'))
        if pb.acc_type == "iban" then
          some (el "CdtrAcct"
            [el "Id" [txt "IBAN" (String.mk (acc.data.map Char.toUpper))]])
        else
          let scheme :=
            match compute_swedbank_account_type pb with
            | some SwedAcctType.bankgiro => txt "Prtry" "BGNR"
            | some SwedAcctType.plusgiro => txt "Cd" "BBAN"
            | _ => txt "Cd" "BBAN"
          some (el "CdtrAcct"
            [el "Id"
              [el "Othr"
                [txt "Id" acc,
                 el "SchmeNm" [scheme]]]])

/-- `_swedbank_get_rmt_inf`: remittance text from `ref` or `memo`,
sanitized with the Swedish extension enabled. -/
def swedbank_get_rmt_inf (p : Payment) : Option Xml :=
  match p.ref.orElse (fun _ => p.memo) with
  | none => none
  | some comm =>
    if comm == "" then none
    else some (el "RmtInf" [txt "Ustrd" (sanitizeTextS comm 140 true)])

/-- `_swedbank_get_cdt_trf_tx_inf`: one credit transfer transaction. -/
def swedbank_get_cdt_trf_tx_inf (j : Journal) (p : Payment) : Xml :=
  let instrId := sanitizeIdS (p.name.getD ("PMT-" ++ toString p.id)) 35
  let e2e :=
    sanitizeIdS
      ((p.ref.orElse (fun _ => p.name)).getD (String.mk (p.fallback_uuid.data.take 35))) 35
  el "CdtTrfTxInf"
    ([el "PmtId" [txt "InstrId" instrId, txt "EndToEndId" e2e],
      el "Amt" [Xml.mk "InstdAmt" [("Ccy", p.currency.name)] (some (formatAmount p.amount)) []]]
     ++ (swedbank_get_cdtr_agt p).toList
     ++ [swedbank_get_cdtr p]
     ++ (swedbank_get_cdtr_acct p).toList
     ++ (swedbank_get_rmt_inf p).toList)

/-- Grouping key of `_swedbank_group_payments`:
`(self.bank_account_id.id, str(payment.date or fields.Date.today()))`.
The builder only runs with a configured bank account; `getD 0` covers the
unreachable case. -/
def execDateKey (j : Journal) (today : String) (p : Payment) : Nat × String :=
  ((j.bank_account.map (fun b => b.id)).getD 0, p.date.getD today)

/-- Insert a payment into the insertion-ordered group list
(`groups[key] |= payment` on a fresh or existing key). -/
def addToGroups (key : Nat × String) (p : Payment) :
    List ((Nat × String) × List Payment) → List ((Nat × String) × List Payment)
  | [] => [(key, [p])]
  | g :: rest =>
    if g.1 = key then (g.1, g.2 ++ [p]) :: rest
    else g :: addToGroups key p rest

/-- `_swedbank_group_payments`: group by (debtor account id, execution
date), preserving first-seen order of groups and of payments in a group. -/
def swedbank_group_payments (j : Journal) (today : String) (payments : List Payment) :
    List ((Nat × String) × List Payment) :=
  payments.foldl (fun gs p => addToGroups (execDateKey j today p) p gs) []

/-- Charge bearer of a payment information block:
`self.swedbank_charge_bearer or 'SHAR'`, forced to `SLEV` under SEPA. -/
def swedbank_charge_bearer_code (j : Journal) : String :=
  if j.swedbank_service_level == some "SEPA" then "SLEV"
  else j.swedbank_charge_bearer.getD "SHAR"

/-- `_swedbank_get_pmt_inf`: one payment information block for a group. -/
def swedbank_get_pmt_inf (j : Journal) (now : String) (payments : List Payment)
    (key : Nat × String) : Xml :=
  el "PmtInf"
    ([txt "PmtInfId" (sanitizeIdS ("PMTINF-" ++ toString j.id ++ "-" ++ now) 35),
      txt "PmtMtd" "TRF",
      txt "BtchBookg" "true",
      txt "NbOfTxs" (toString payments.length),
      txt "CtrlSum" (formatAmount (sumAmounts payments)),
      swedbank_get_pmt_tp_inf j payments.head?,
      txt "ReqdExctnDt" key.2,
      swedbank_get_dbtr j,
      swedbank_get_dbtr_acct j,
      swedbank_get_dbtr_agt,
      txt "ChrgBr" (swedbank_charge_bearer_code j)]
     ++ payments.map (swedbank_get_cdt_trf_tx_inf j))

/-- The element tree assembled by `create_swedbank_credit_transfer` once
validation has passed: the namespaced `Document` root with one
`CstmrCdtTrfInitn` holding the group header and one `PmtInf` per payment
group. -/
def swedbank_build_document (j : Journal) (payments : List Payment)
    (now today : String) : Xml :=
  Xml.mk "Document"
    [("xmlns", painNamespace),
     ("xmlns:xsi", "http://www.w3.org/2001/XMLSchema-instance")]
    none
    [el "CstmrCdtTrfInitn"
      (swedbank_get_grp_hdr j now payments ::
       (swedbank_group_payments j today payments).map
         (fun g => swedbank_get_pmt_inf j now g.2 g.1))]

/-- `create_swedbank_credit_transfer`: configuration checks, then payment
validation, then (and only then) construction of the element tree. The
returned value models the serialized document; an error is raised before
any element is constructed, so no partial tree can escape. -/
def create_swedbank_credit_transfer (j : Journal) (payments : List Payment)
    (now today : String) : Except SwedError Xml :=
  match j.swedbank_agreement_id with
  | none => Except.error (SwedError.missingAgreementId j.name)
  | some _ =>
    match j.bank_account with
    | none => Except.error (SwedError.missingBankAccount j.name)
    | some _ =>
      match swedbank_validate_payments j payments with
      | Except.error e => Except.error e
      | Except.ok _ => Except.ok (swedbank_build_document j payments now today)

/-! ## Schema validation and the validated pipeline -/

/-- `swedbank_validate_xml`. The schema resource is host-side file I/O:
`_swedbank_get_xsd_schema` returns `None` both when the XSD file is absent
and when it fails to parse, which is modelled by the `Option` of the
schema-checking capability passed in. With a schema present, the source
delegates to the lxml engine, modelled by the function carried in the
option. -/
def swedbank_validate_xml (schema : Option (Xml → Bool × List String)) (doc : Xml) :
    Bool × List String :=
  match schema with
  | none => (true, ["Schema validation skipped - XSD not available"])
  | some validate => validate doc

/-- `create_swedbank_credit_transfer_validated`: generate, schema-validate,
and fail with the first 10 collected messages (plus an overflow count) when
invalid. -/
def create_swedbank_credit_transfer_validated
    (schema : Option (Xml → Bool × List String)) (j : Journal)
    (payments : List Payment) (now today : String) : Except SwedError Xml :=
  match create_swedbank_credit_transfer j payments now today with
  | Except.error e => Except.error e
  | Except.ok doc =>
    let res := swedbank_validate_xml schema doc
    if res.1 then Except.ok doc
    else Except.error (SwedError.schemaViolations (res.2.take 10) (res.2.length - 10))

/-! ## End-to-end id constraint and create hook (`account_payment.py`) -/

/-- `_check_swedbank_end_to_end_id`: the stored field, when set, must not
start or end with a slash, contain no double slash, and use only the
Swedbank base character set. -/
def check_swedbank_end_to_end_id (e2e : Option String) : Except String Unit :=
  match e2e with
  | none => Except.ok ()
  | some s =>
    if s == "" then Except.ok ()
    else if startsWithSlash s.data || endsWithSlash s.data then
      Except.error "End-to-End ID must not start or end with a slash."
    else if hasDoubleSlash s.data then
      Except.error "End-to-End ID must not contain a double slash."
    else if !(s.data.all isSwedbankLatin) then
      Except.error "End-to-End ID contains invalid characters."
    else Except.ok ()

/-- The `create` override: fill `swedbank_end_to_end_id` with
`str(uuid.uuid4())[:35]` when the value is missing or empty. -/
def payment_create_fill_e2e (given : Option String) (uuidStr : String) : String :=
  match given with
  | some s => if s == "" then String.mk (uuidStr.data.take 35) else s
  | none => String.mk (uuidStr.data.take 35)

/-! ## Extraction helpers over the document tree -/

/-- Children of an element carrying a given tag. -/
def taggedChildren (tag : String) (x : Xml) : List Xml :=
  x.children.filter (fun c => c.tag == tag)

/-- The group header elements of a document. -/
def docGrpHdrs (doc : Xml) : List Xml :=
  (taggedChildren "CstmrCdtTrfInitn" doc).flatMap (taggedChildren "GrpHdr")

/-- The payment information blocks of a document. -/
def docPmtInfs (doc : Xml) : List Xml :=
  (taggedChildren "CstmrCdtTrfInitn" doc).flatMap (taggedChildren "PmtInf")

/-- The credit transfer transaction blocks of a document. -/
def docTxInfs (doc : Xml) : List Xml :=
  (docPmtInfs doc).flatMap (taggedChildren "CdtTrfTxInf")

/-- The texts of the direct `CtrlSum` children of an element. -/
def ctrlSumTexts (x : Xml) : List String :=
  (taggedChildren "CtrlSum" x).filterMap Xml.text

/-- The instructed amount texts of one credit transfer transaction. -/
def txInstdAmtTexts (t : Xml) : List String :=
  ((taggedChildren "Amt" t).flatMap (taggedChildren "InstdAmt")).filterMap Xml.text

/-- The instructed amount texts of a document, in document order. -/
def instdAmtTexts (doc : Xml) : List String :=
  (docTxInfs doc).flatMap txInstdAmtTexts

/-- The (tag, text) pairs of the creditor account scheme elements of a
document (children of `CdtrAcct/Id/Othr/SchmeNm`). -/
def cdtrAcctSchemes (doc : Xml) : List (String × Option String) :=
  ((((docTxInfs doc).flatMap (taggedChildren "CdtrAcct")).flatMap
      (taggedChildren "Id")).flatMap (taggedChildren "Othr")).flatMap
    (fun o => (taggedChildren "SchmeNm" o).flatMap
      (fun s => s.children.map (fun c => (c.tag, c.text))))

/-- The service level codes of a payment type information element. -/
def svcLvlCodes (x : Xml) : List String :=
  ((taggedChildren "SvcLvl" x).flatMap (taggedChildren "Cd")).filterMap Xml.text

/-- The `xmlns` attribute of the document root. -/
def rootXmlns (doc : Xml) : Option String :=
  (doc.attrs.find? (fun a => a.1 == "xmlns")).map Prod.snd

/-! ## Sanitizer lemmas -/

theorem hasDoubleSlash_cons_of_tail {x : Char} {tl : List Char}
    (h : hasDoubleSlash tl = true) : hasDoubleSlash (x :: tl) = true := by
  cases tl with
  | nil => simp [hasDoubleSlash] at h
  | cons y tl' =>
    simp only [hasDoubleSlash, Bool.or_eq_true] at h ⊢
    exact Or.inr h

theorem hasDoubleSlash_iff {l : List Char} :
    hasDoubleSlash l = true ↔ ∃ a b, l = a ++ '/' :: '/' :: b := by
  constructor
  · intro h
    induction l with
    | nil => simp [hasDoubleSlash] at h
    | cons c tl ih =>
      cases tl with
      | nil => simp [hasDoubleSlash] at h
      | cons d rest =>
        simp only [hasDoubleSlash, Bool.or_eq_true, Bool.and_eq_true, beq_iff_eq] at h
        rcases h with ⟨hc, hd⟩ | h
        · exact ⟨[], rest, by simp [hc, hd]⟩
        · rcases ih h with ⟨a, b, hab⟩
          exact ⟨c :: a, b, by simp [hab]⟩
  · rintro ⟨a, b, rfl⟩
    induction a with
    | nil => simp [hasDoubleSlash]
    | cons x a' ih => exact hasDoubleSlash_cons_of_tail ih

theorem hasDoubleSlash_middle_false {a m t : List Char}
    (h : hasDoubleSlash (a ++ m ++ t) = false) : hasDoubleSlash m = false := by
  by_contra hm
  have hm' : hasDoubleSlash m = true := by
    cases hmm : hasDoubleSlash m
    · exact absurd hmm hm
    · rfl
  rcases hasDoubleSlash_iff.mp hm' with ⟨x, y, rfl⟩
  have : hasDoubleSlash (a ++ (x ++ '/' :: '/' :: y) ++ t) = true := by
    refine hasDoubleSlash_iff.mpr ⟨a ++ x, y ++ t, ?_⟩
    simp
  rw [this] at h
  simp at h

theorem hasDoubleSlash_take_false {l : List Char} {n : Nat}
    (h : hasDoubleSlash l = false) : hasDoubleSlash (l.take n) = false := by
  have hsplit : l = [] ++ l.take n ++ l.drop n := by simp
  exact hasDoubleSlash_middle_false (hsplit ▸ h)

theorem mem_replaceDoubleSlash {x : Char} :
    ∀ {l : List Char}, x ∈ replaceDoubleSlash l → x ∈ l := by
  intro l
  induction l using replaceDoubleSlash.induct with
  | case1 c d rest h ih =>
    intro hx
    simp only [replaceDoubleSlash, if_pos h, List.mem_cons] at hx
    simp only [Bool.and_eq_true, beq_iff_eq] at h
    rcases hx with rfl | hx
    · simp [h.1]
    · simp [ih hx]
  | case2 c d rest h ih =>
    intro hx
    simp only [replaceDoubleSlash, if_neg h, List.mem_cons] at hx
    rcases hx with rfl | hx
    · exact List.mem_cons_self _ _
    · exact List.mem_cons_of_mem c (ih hx)
  | case3 l hl =>
    intro hx
    cases l with
    | nil => simpa [replaceDoubleSlash] using hx
    | cons c tl =>
      cases tl with
      | nil => simpa [replaceDoubleSlash] using hx
      | cons d rest => exact absurd rfl (hl c d rest)

theorem mem_collapseDoubleSlashFuel {x : Char} :
    ∀ (fuel : Nat) (l : List Char), x ∈ collapseDoubleSlashFuel fuel l → x ∈ l := by
  intro fuel
  induction fuel with
  | zero => intro l hx; exact hx
  | succ n ih =>
    intro l hx
    by_cases h : hasDoubleSlash l = true
    · simp only [collapseDoubleSlashFuel, if_pos h] at hx
      exact mem_replaceDoubleSlash (ih _ hx)
    · simp only [collapseDoubleSlashFuel, if_neg h] at hx
      exact hx

theorem collapseDoubleSlashFuel_no_ds :
    ∀ (fuel : Nat) (l : List Char), l.length ≤ fuel →
      hasDoubleSlash (collapseDoubleSlashFuel fuel l) = false := by
  intro fuel
  induction fuel with
  | zero =>
    intro l hl
    have : l = [] := List.length_eq_zero.mp (Nat.le_zero.mp hl)
    subst this
    simp [collapseDoubleSlashFuel, hasDoubleSlash]
  | succ n ih =>
    intro l hl
    by_cases h : hasDoubleSlash l = true
    · simp only [collapseDoubleSlashFuel, if_pos h]
      have hlt := replaceDoubleSlash_length_lt l h
      exact ih _ (by omega)
    · simp only [collapseDoubleSlashFuel, if_neg h]
      cases hds : hasDoubleSlash l
      · rfl
      · exact absurd hds h

theorem collapseDoubleSlash_no_ds (l : List Char) :
    hasDoubleSlash (collapseDoubleSlash l) = false :=
  collapseDoubleSlashFuel_no_ds l.length l (Nat.le_refl _)

theorem mem_collapseDoubleSlash {x : Char} {l : List Char}
    (hx : x ∈ collapseDoubleSlash l) : x ∈ l :=
  mem_collapseDoubleSlashFuel l.length l hx

theorem collapseDoubleSlashFuel_of_no_ds {l : List Char}
    (h : hasDoubleSlash l = false) :
    ∀ fuel : Nat, collapseDoubleSlashFuel fuel l = l := by
  intro fuel
  cases fuel with
  | zero => rfl
  | succ n => simp [collapseDoubleSlashFuel, h]

theorem collapseDoubleSlash_of_no_ds {l : List Char}
    (h : hasDoubleSlash l = false) : collapseDoubleSlash l = l :=
  collapseDoubleSlashFuel_of_no_ds h l.length

theorem swedbank_sanitize_text_no_ds (t : List Char) (n : Nat) (sw : Bool) :
    hasDoubleSlash (swedbank_sanitize_text t n sw) = false := by
  unfold swedbank_sanitize_text
  by_cases h : t.isEmpty
  · simp [h, hasDoubleSlash]
  · simp only [h, if_neg, Bool.false_eq_true, not_false_eq_true]
    exact hasDoubleSlash_take_false (collapseDoubleSlash_no_ds _)

theorem swedbank_sanitize_text_length_le (t : List Char) (n : Nat) (sw : Bool) :
    (swedbank_sanitize_text t n sw).length ≤ n := by
  unfold swedbank_sanitize_text
  by_cases h : t.isEmpty
  · simp [h]
  · simp only [h, if_neg, Bool.false_eq_true, not_false_eq_true]
    rw [List.length_take]
    omega

theorem CHAR_REPLACEMENT_MAP_latin :
    CHAR_REPLACEMENT_MAP.all
      (fun p => p.2.data.all
        (fun x => isSwedbankLatin x && isSwedbankLatin (Char.toUpper x))) = true := by
  decide

theorem charReplacement_latin {c : Char} {r : String}
    (h : charReplacement c = some r) :
    ∀ x ∈ r.data, isSwedbankLatin x = true ∧ isSwedbankLatin (Char.toUpper x) = true := by
  intro x hx
  unfold charReplacement at h
  rcases Option.map_eq_some'.mp h with ⟨p, hfind, hsnd⟩
  have hmem : p ∈ CHAR_REPLACEMENT_MAP := List.mem_of_find?_eq_some hfind
  have hall := List.all_eq_true.mp CHAR_REPLACEMENT_MAP_latin p hmem
  have hx' := List.all_eq_true.mp hall x (hsnd ▸ hx)
  exact ⟨(Bool.and_eq_true _ _).mp hx' |>.1, (Bool.and_eq_true _ _).mp hx' |>.2⟩

theorem allowedChar_false_eq (c : Char) :
    allowedChar false c = isSwedbankLatin c := by
  simp [allowedChar]

theorem sanitizeChar_latin {c x : Char}
    (hx : x ∈ sanitizeChar false c) : isSwedbankLatin x = true := by
  unfold sanitizeChar at hx
  by_cases hall : allowedChar false c = true
  · rw [if_pos hall] at hx
    rcases List.mem_singleton.mp hx with rfl
    rw [allowedChar_false_eq] at hall
    exact hall
  · rw [if_neg hall] at hx
    cases h1 : charReplacement c with
    | some r =>
      rw [h1] at hx
      exact (charReplacement_latin h1 x hx).1
    | none =>
      rw [h1] at hx
      cases h2 : charReplacement (pyLower c) with
      | some r =>
        simp only [h2] at hx
        by_cases hup : pyIsUpper c = true
        · simp only [if_pos hup] at hx
          rcases List.mem_map.mp hx with ⟨y, hy, rfl⟩
          exact (charReplacement_latin h2 y hy).2
        · simp only [if_neg hup] at hx
          exact (charReplacement_latin h2 x hx).1
      | none =>
        simp only [h2] at hx
        exact absurd hx (List.not_mem_nil x)

theorem sanitizeAccum_latin {t : List Char} {x : Char}
    (hx : x ∈ sanitizeAccum false t) : isSwedbankLatin x = true := by
  rcases List.mem_flatMap.mp hx with ⟨c, _, hmem⟩
  exact sanitizeChar_latin hmem

theorem swedbank_sanitize_text_latin {t : List Char} {n : Nat} {x : Char}
    (hx : x ∈ swedbank_sanitize_text t n false) : isSwedbankLatin x = true := by
  unfold swedbank_sanitize_text at hx
  by_cases h : t.isEmpty
  · simp [h] at hx
  · simp only [h, if_neg, Bool.false_eq_true, not_false_eq_true] at hx
    exact sanitizeAccum_latin (mem_collapseDoubleSlash (List.take_subset _ _ hx))

theorem sanitizeAccum_of_allowed {t : List Char}
    (h : ∀ c ∈ t, allowedChar false c = true) : sanitizeAccum false t = t := by
  induction t with
  | nil => rfl
  | cons c tl ih =>
    have hc := h c (List.mem_cons_self _ _)
    have htl := ih (fun d hd => h d (List.mem_cons_of_mem c hd))
    simp only [sanitizeAccum, List.flatMap_cons] at *
    rw [htl]
    simp [sanitizeChar, hc]

theorem exists_append_dropWhile (p : Char → Bool) (l : List Char) :
    ∃ a, a ++ l.dropWhile p = l := by
  induction l with
  | nil => exact ⟨[], rfl⟩
  | cons c tl ih =>
    by_cases hc : p c = true
    · rcases ih with ⟨a, ha⟩
      exact ⟨c :: a, by simp [List.dropWhile_cons, hc, ha]⟩
    · exact ⟨[], by simp [List.dropWhile_cons, hc]⟩

theorem head?_dropWhile_false {p : Char → Bool} {l : List Char} {x : Char}
    (h : (l.dropWhile p).head? = some x) : p x = false := by
  induction l with
  | nil => simp at h
  | cons c tl ih =>
    by_cases hc : p c = true
    · rw [List.dropWhile_cons, if_pos hc] at h
      exact ih h
    · rw [List.dropWhile_cons, if_neg hc] at h
      simp only [List.head?_cons, Option.some.injEq] at h
      subst h
      simp only [Bool.not_eq_true] at hc
      exact hc

theorem startsWithSlash_lstrip (l : List Char) :
    startsWithSlash (lstripSlash l) = false := by
  unfold startsWithSlash lstripSlash
  cases hh : (l.dropWhile (· == '/')).head? with
  | none => rfl
  | some c =>
    have := head?_dropWhile_false hh
    simp [this]

theorem exists_rstrip_append (l : List Char) : ∃ t, rstripSlash l ++ t = l := by
  rcases exists_append_dropWhile (· == '/') l.reverse with ⟨a, ha⟩
  refine ⟨a.reverse, ?_⟩
  unfold rstripSlash
  have := congrArg List.reverse ha
  simpa [List.reverse_append] using this

theorem startsWithSlash_rstrip_false {l : List Char}
    (h : startsWithSlash l = false) : startsWithSlash (rstripSlash l) = false := by
  unfold startsWithSlash at *
  cases hh : (rstripSlash l).head? with
  | none => rfl
  | some c =>
    rcases exists_rstrip_append l with ⟨t, ht⟩
    have hne : rstripSlash l ≠ [] := by
      intro hnil
      rw [hnil] at hh
      simp at hh
    have hl : l.head? = some c := by
      rw [← ht, List.head?_append, hh]
      rfl
    rw [hl] at h
    simpa using h

theorem endsWithSlash_rstrip (l : List Char) :
    endsWithSlash (rstripSlash l) = false := by
  unfold endsWithSlash rstripSlash startsWithSlash
  rw [List.reverse_reverse]
  cases hh : (l.reverse.dropWhile (· == '/')).head? with
  | none => rfl
  | some c =>
    have := head?_dropWhile_false hh
    simp [this]

theorem startsWithSlash_strip (l : List Char) :
    startsWithSlash (stripSlash l) = false :=
  startsWithSlash_rstrip_false (startsWithSlash_lstrip l)

theorem endsWithSlash_strip (l : List Char) :
    endsWithSlash (stripSlash l) = false :=
  endsWithSlash_rstrip (lstripSlash l)

theorem exists_strip_decomposition (l : List Char) :
    ∃ a t, a ++ stripSlash l ++ t = l := by
  rcases exists_append_dropWhile (· == '/') l with ⟨a, ha⟩
  rcases exists_rstrip_append (lstripSlash l) with ⟨t, ht⟩
  refine ⟨a, t, ?_⟩
  unfold stripSlash
  rw [List.append_assoc, ht]
  exact ha

theorem stripSlash_length_le (l : List Char) :
    (stripSlash l).length ≤ l.length := by
  rcases exists_strip_decomposition l with ⟨a, t, h⟩
  have := congrArg List.length h
  simp only [List.length_append] at this
  omega

theorem hasDoubleSlash_strip_false {l : List Char}
    (h : hasDoubleSlash l = false) : hasDoubleSlash (stripSlash l) = false := by
  rcases exists_strip_decomposition l with ⟨a, t, hd⟩
  exact hasDoubleSlash_middle_false (hd ▸ h)

theorem mem_stripSlash {l : List Char} {x : Char}
    (hx : x ∈ stripSlash l) : x ∈ l := by
  rcases exists_strip_decomposition l with ⟨a, t, hd⟩
  rw [← hd]
  simp [hx]

theorem lstrip_of_not_slash {l : List Char}
    (h : startsWithSlash l = false) : lstripSlash l = l := by
  cases l with
  | nil => rfl
  | cons c tl =>
    unfold startsWithSlash at h
    simp only [List.head?_cons] at h
    unfold lstripSlash
    rw [List.dropWhile_cons, if_neg]
    simpa using h

theorem rstrip_of_not_slash {l : List Char}
    (h : endsWithSlash l = false) : rstripSlash l = l := by
  unfold endsWithSlash at h
  have h2 : lstripSlash l.reverse = l.reverse := lstrip_of_not_slash h
  unfold lstripSlash at h2
  unfold rstripSlash
  rw [h2, List.reverse_reverse]

theorem swedbank_sanitize_id_eq_strip (t : List Char) (n : Nat) :
    swedbank_sanitize_id t n =
      if t.isEmpty then [] else stripSlash (swedbank_sanitize_text t n false) := by
  unfold swedbank_sanitize_id
  by_cases h : t.isEmpty
  · simp [h]
  · simp only [h, Bool.false_eq_true, if_neg, not_false_eq_true]
    have hds : hasDoubleSlash (stripSlash (swedbank_sanitize_text t n false)) = false :=
      hasDoubleSlash_strip_false (swedbank_sanitize_text_no_ds t n false)
    rw [collapseDoubleSlash_of_no_ds hds]
    apply List.take_of_length_le
    calc (stripSlash (swedbank_sanitize_text t n false)).length
        ≤ (swedbank_sanitize_text t n false).length := stripSlash_length_le _
      _ ≤ n := swedbank_sanitize_text_length_le t n false

theorem swedbank_sanitize_id_starts (t : List Char) (n : Nat) :
    startsWithSlash (swedbank_sanitize_id t n) = false := by
  rw [swedbank_sanitize_id_eq_strip]
  by_cases h : t.isEmpty
  · simp [h, startsWithSlash]
  · simp only [h, Bool.false_eq_true, if_neg, not_false_eq_true]
    exact startsWithSlash_strip _

theorem swedbank_sanitize_id_ends (t : List Char) (n : Nat) :
    endsWithSlash (swedbank_sanitize_id t n) = false := by
  rw [swedbank_sanitize_id_eq_strip]
  by_cases h : t.isEmpty
  · simp [h, endsWithSlash, startsWithSlash]
  · simp only [h, Bool.false_eq_true, if_neg, not_false_eq_true]
    exact endsWithSlash_strip _

theorem swedbank_sanitize_id_latin {t : List Char} {n : Nat} {x : Char}
    (hx : x ∈ swedbank_sanitize_id t n) : isSwedbankLatin x = true := by
  rw [swedbank_sanitize_id_eq_strip] at hx
  by_cases h : t.isEmpty
  · simp [h] at hx
  · simp only [h, Bool.false_eq_true, if_neg, not_false_eq_true] at hx
    exact swedbank_sanitize_text_latin (mem_stripSlash hx)

theorem swedbank_sanitize_id_no_ds (t : List Char) (n : Nat) :
    hasDoubleSlash (swedbank_sanitize_id t n) = false := by
  rw [swedbank_sanitize_id_eq_strip]
  by_cases h : t.isEmpty
  · simp [h, hasDoubleSlash]
  · simp only [h, Bool.false_eq_true, if_neg, not_false_eq_true]
    exact hasDoubleSlash_strip_false (swedbank_sanitize_text_no_ds t n false)

theorem swedbank_sanitize_id_length_le (t : List Char) (n : Nat) :
    (swedbank_sanitize_id t n).length ≤ n := by
  rw [swedbank_sanitize_id_eq_strip]
  by_cases h : t.isEmpty
  · simp [h]
  · simp only [h, Bool.false_eq_true, if_neg, not_false_eq_true]
    calc (stripSlash (swedbank_sanitize_text t n false)).length
        ≤ (swedbank_sanitize_text t n false).length := stripSlash_length_le _
      _ ≤ n := swedbank_sanitize_text_length_le t n false

theorem swedbank_sanitize_id_fixed {u : List Char} {n : Nat}
    (hlatin : ∀ c ∈ u, isSwedbankLatin c = true)
    (hs : startsWithSlash u = false) (he : endsWithSlash u = false)
    (hds : hasDoubleSlash u = false) (hlen : u.length ≤ n) :
    swedbank_sanitize_id u n = u := by
  by_cases hu : u.isEmpty
  · rw [List.isEmpty_iff] at hu
    subst hu
    rfl
  · have htext : swedbank_sanitize_text u n false = u := by
      unfold swedbank_sanitize_text
      rw [if_neg (by simp [hu])]
      rw [sanitizeAccum_of_allowed (fun c hc => by
        rw [allowedChar_false_eq]
        exact hlatin c hc)]
      rw [collapseDoubleSlash_of_no_ds hds]
      exact List.take_of_length_le hlen
    rw [swedbank_sanitize_id_eq_strip, if_neg (by simp [hu]), htext]
    unfold stripSlash
    rw [lstrip_of_not_slash hs]
    exact rstrip_of_not_slash he

/-! ## Grouping and sum lemmas -/

/-- All payments of a group list, in group order. -/
def groupsFlat (gs : List ((Nat × String) × List Payment)) : List Payment :=
  gs.flatMap (fun g => g.2)

theorem groupsFlat_addToGroups (key : Nat × String) (p : Payment) :
    ∀ gs : List ((Nat × String) × List Payment),
      List.Perm (groupsFlat (addToGroups key p gs)) (groupsFlat gs ++ [p]) := by
  intro gs
  induction gs with
  | nil => simp [addToGroups, groupsFlat]
  | cons g rest ih =>
    by_cases h : g.1 = key
    · simp only [addToGroups, if_pos h, groupsFlat, List.flatMap_cons]
      rw [List.append_assoc, List.append_assoc]
      exact List.Perm.append_left g.2 (List.perm_append_comm)
    · simp only [addToGroups, if_neg h, groupsFlat, List.flatMap_cons]
      rw [List.append_assoc]
      refine List.Perm.append_left g.2 ?_
      simpa [groupsFlat] using ih

theorem groupsFlat_foldl (j : Journal) (today : String) :
    ∀ (ps : List Payment) (gs : List ((Nat × String) × List Payment)),
      List.Perm
        (groupsFlat (ps.foldl (fun acc p => addToGroups (execDateKey j today p) p acc) gs))
        (groupsFlat gs ++ ps) := by
  intro ps
  induction ps with
  | nil => intro gs; simp
  | cons p rest ih =>
    intro gs
    simp only [List.foldl_cons]
    refine (ih (addToGroups (execDateKey j today p) p gs)).trans ?_
    have h1 := groupsFlat_addToGroups (execDateKey j today p) p gs
    refine (List.Perm.append_right rest h1).trans ?_
    rw [List.append_assoc, List.singleton_append]

theorem swedbank_group_payments_perm (j : Journal) (today : String)
    (ps : List Payment) :
    List.Perm (groupsFlat (swedbank_group_payments j today ps)) ps := by
  have := groupsFlat_foldl j today ps []
  simpa [groupsFlat] using this

theorem sumAmounts_eq_map_sum (ps : List Payment) :
    sumAmounts ps = (ps.map (fun p => p.amount)).sum := by
  have h : ∀ (l : List Payment) (a : Int),
      l.foldl (fun acc p => acc + p.amount) a = a + (l.map (fun p => p.amount)).sum := by
    intro l
    induction l with
    | nil => intro a; simp
    | cons q rest ih =>
      intro a
      simp only [List.foldl_cons, List.map_cons, List.sum_cons, ih]
      ring
  simpa [sumAmounts] using h ps 0

theorem sum_group_sums (gs : List ((Nat × String) × List Payment)) :
    (gs.map (fun g => sumAmounts g.2)).sum = ((groupsFlat gs).map (fun p => p.amount)).sum := by
  induction gs with
  | nil => simp [groupsFlat]
  | cons g rest ih =>
    simp only [List.map_cons, List.sum_cons, groupsFlat, List.flatMap_cons,
      List.map_append, List.sum_append] at *
    rw [sumAmounts_eq_map_sum, ih]

theorem swedbank_group_payments_sum (j : Journal) (today : String) (ps : List Payment) :
    ((swedbank_group_payments j today ps).map (fun g => sumAmounts g.2)).sum =
      sumAmounts ps := by
  rw [sum_group_sums, sumAmounts_eq_map_sum]
  exact List.Perm.sum_eq (List.Perm.map _ (swedbank_group_payments_perm j today ps))

/-! ## Validator lemmas -/

theorem swedbank_validate_payments_append_ok {j : Journal} {pre : List Payment}
    (h : ∀ q ∈ pre, swedbank_check_payment j q = Except.ok ()) (l : List Payment) :
    swedbank_validate_payments j (pre ++ l) = swedbank_validate_payments j l := by
  induction pre with
  | nil => simp
  | cons q rest ih =>
    have hq := h q (List.mem_cons_self _ _)
    simp only [List.cons_append, swedbank_validate_payments, hq]
    exact ih (fun r hr => h r (List.mem_cons_of_mem q hr))

theorem swedbank_validate_payments_error_of_mem {j : Journal} {p : Payment}
    {e : SwedError} (hp : swedbank_check_payment j p = Except.error e) :
    ∀ qs : List Payment, p ∈ qs →
      ∃ e', swedbank_validate_payments j qs = Except.error e' := by
  intro qs
  induction qs with
  | nil => intro h; exact absurd h (List.not_mem_nil p)
  | cons q rest ih =>
    intro hmem
    cases hq : swedbank_check_payment j q with
    | error e' => exact ⟨e', by simp [swedbank_validate_payments, hq]⟩
    | ok u =>
      rcases List.mem_cons.mp hmem with rfl | hmem'
      · rw [hp] at hq
        exact absurd hq (by simp)
      · rcases ih hmem' with ⟨e', he'⟩
        refine ⟨e', ?_⟩
        cases u
        simp [swedbank_validate_payments, hq, he']

theorem swedbank_check_payment_nonpos {j : Journal} {p : Payment}
    (hpartner : p.partner.isSome = true) (hamt : p.amount ≤ 0) :
    swedbank_check_payment j p = Except.error (SwedError.invalidAmount p.name) := by
  unfold swedbank_check_payment
  rw [if_neg (by simp [Option.isNone_iff_eq_none]; rcases Option.isSome_iff_exists.mp hpartner with ⟨a, ha⟩; simp [ha])]
  rw [if_pos hamt]

theorem swedbank_check_payment_nonpos_error {j : Journal} {p : Payment}
    (hamt : p.amount ≤ 0) :
    ∃ e, swedbank_check_payment j p = Except.error e := by
  unfold swedbank_check_payment
  by_cases hp : p.partner.isNone = true
  · exact ⟨SwedError.noPartner p.name, by rw [if_pos hp]⟩
  · exact ⟨SwedError.invalidAmount p.name, by rw [if_neg hp, if_pos hamt]⟩

/-! ## Document extraction lemmas -/

theorem flatMap_singleton_fn {α β : Type} (f : α → β) (l : List α) :
    l.flatMap (fun x => [f x]) = l.map f := by
  induction l with
  | nil => rfl
  | cons a tl ih => simp [List.flatMap_cons, ih]

theorem filter_tag_map_eq_nil {α : Type} (f : α → Xml) (tg : String)
    (h : ∀ a, ((f a).tag == tg) = false) (l : List α) :
    (l.map f).filter (fun c => c.tag == tg) = [] := by
  rw [List.filter_map]
  have hnil : List.filter ((fun c => c.tag == tg) ∘ f) l = [] :=
    List.filter_eq_nil_iff.mpr (fun a _ => by simp [Function.comp, h a])
  rw [hnil, List.map_nil]

theorem filter_tag_map_eq_map {α : Type} (f : α → Xml) (tg : String)
    (h : ∀ a, ((f a).tag == tg) = true) (l : List α) :
    (l.map f).filter (fun c => c.tag == tg) = l.map f := by
  rw [List.filter_map]
  have hall : List.filter ((fun c => c.tag == tg) ∘ f) l = l :=
    List.filter_eq_self.mpr (fun a _ => by simp [Function.comp]; simpa using h a)
  rw [hall]

theorem filter_toList_tag_ne {o : Option Xml} {tg : String}
    (h : ∀ x, o = some x → (x.tag == tg) = false) :
    o.toList.filter (fun c => c.tag == tg) = [] := by
  cases o with
  | none => rfl
  | some x =>
    simp only [Option.toList_some, List.filter_cons, h x rfl, List.filter_nil]
    simp

theorem swedbank_get_cdtr_agt_tag {p : Payment} {x : Xml}
    (h : swedbank_get_cdtr_agt p = some x) : x.tag = "CdtrAgt" := by
  unfold swedbank_get_cdtr_agt at h
  cases hpb : p.partner_bank with
  | none => rw [hpb] at h; exact absurd h (by simp)
  | some pb =>
    rw [hpb] at h
    simp only [Option.some.injEq] at h
    subst h
    rfl

theorem swedbank_get_cdtr_acct_tag {p : Payment} {x : Xml}
    (h : swedbank_get_cdtr_acct p = some x) : x.tag = "CdtrAcct" := by
  unfold swedbank_get_cdtr_acct at h
  split at h
  · exact absurd h (by simp)
  · split at h
    · exact absurd h (by simp)
    · split at h
      · exact absurd h (by simp)
      · split at h
        · simp only [Option.some.injEq] at h
          subst h
          rfl
        · simp only [Option.some.injEq] at h
          subst h
          rfl

theorem swedbank_get_rmt_inf_tag {p : Payment} {x : Xml}
    (h : swedbank_get_rmt_inf p = some x) : x.tag = "RmtInf" := by
  unfold swedbank_get_rmt_inf at h
  split at h
  · exact absurd h (by simp)
  · split at h
    · exact absurd h (by simp)
    · simp only [Option.some.injEq] at h
      subst h
      rfl

theorem swedbank_get_grp_hdr_tag (j : Journal) (now : String) (ps : List Payment) :
    (swedbank_get_grp_hdr j now ps).tag = "GrpHdr" := rfl

theorem swedbank_get_pmt_inf_tag (j : Journal) (now : String) (ps : List Payment)
    (k : Nat × String) : (swedbank_get_pmt_inf j now ps k).tag = "PmtInf" := rfl

theorem swedbank_get_pmt_tp_inf_tag (j : Journal) (h : Option Payment) :
    (swedbank_get_pmt_tp_inf j h).tag = "PmtTpInf" := rfl

theorem swedbank_get_dbtr_tag (j : Journal) : (swedbank_get_dbtr j).tag = "Dbtr" := rfl

theorem swedbank_get_dbtr_acct_tag (j : Journal) :
    (swedbank_get_dbtr_acct j).tag = "DbtrAcct" := rfl

theorem swedbank_get_dbtr_agt_tag : swedbank_get_dbtr_agt.tag = "DbtrAgt" := rfl

theorem swedbank_get_cdt_trf_tx_inf_tag (j : Journal) (p : Payment) :
    (swedbank_get_cdt_trf_tx_inf j p).tag = "CdtTrfTxInf" := rfl

theorem swedbank_get_cdtr_tag (p : Payment) : (swedbank_get_cdtr p).tag = "Cdtr" := rfl

theorem ctrlSumTexts_grp_hdr (j : Journal) (now : String) (ps : List Payment) :
    ctrlSumTexts (swedbank_get_grp_hdr j now ps) = [formatAmount (sumAmounts ps)] := rfl

theorem el_tag (t : String) (ch : List Xml) : (el t ch).tag = t := rfl

theorem el_children (t : String) (ch : List Xml) : (el t ch).children = ch := rfl

theorem txt_tag (t s : String) : (txt t s).tag = t := rfl

theorem txt_children (t s : String) : (txt t s).children = [] := rfl

theorem txt_text (t s : String) : (txt t s).text = some s := rfl

theorem mk_tag (t : String) (a : List (String × String)) (tx : Option String)
    (ch : List Xml) : (Xml.mk t a tx ch).tag = t := rfl

theorem mk_children (t : String) (a : List (String × String)) (tx : Option String)
    (ch : List Xml) : (Xml.mk t a tx ch).children = ch := rfl

theorem mk_text (t : String) (a : List (String × String)) (tx : Option String)
    (ch : List Xml) : (Xml.mk t a tx ch).text = tx := rfl

theorem taggedChildren_pmt_inf_ctrlSum (j : Journal) (now : String)
    (ps : List Payment) (k : Nat × String) :
    taggedChildren "CtrlSum" (swedbank_get_pmt_inf j now ps k)
      = [txt "CtrlSum" (formatAmount (sumAmounts ps))] := by
  unfold swedbank_get_pmt_inf taggedChildren
  rw [el_children, List.filter_append]
  rw [filter_tag_map_eq_nil (swedbank_get_cdt_trf_tx_inf j) "CtrlSum" (fun a => rfl) ps]
  simp [List.filter_cons, txt_tag, swedbank_get_pmt_tp_inf_tag,
    swedbank_get_dbtr_tag, swedbank_get_dbtr_acct_tag, swedbank_get_dbtr_agt_tag]

theorem ctrlSumTexts_pmt_inf (j : Journal) (now : String) (ps : List Payment)
    (k : Nat × String) :
    ctrlSumTexts (swedbank_get_pmt_inf j now ps k)
      = [formatAmount (sumAmounts ps)] := by
  unfold ctrlSumTexts
  rw [taggedChildren_pmt_inf_ctrlSum]
  rfl

theorem taggedChildren_pmt_inf_tx (j : Journal) (now : String) (ps : List Payment)
    (k : Nat × String) :
    taggedChildren "CdtTrfTxInf" (swedbank_get_pmt_inf j now ps k)
      = ps.map (swedbank_get_cdt_trf_tx_inf j) := by
  unfold swedbank_get_pmt_inf taggedChildren
  rw [el_children, List.filter_append]
  rw [filter_tag_map_eq_map (swedbank_get_cdt_trf_tx_inf j) "CdtTrfTxInf" (fun a => rfl) ps]
  simp [List.filter_cons, txt_tag, swedbank_get_pmt_tp_inf_tag,
    swedbank_get_dbtr_tag, swedbank_get_dbtr_acct_tag, swedbank_get_dbtr_agt_tag]

theorem txInstdAmtTexts_cdt (j : Journal) (p : Payment) :
    txInstdAmtTexts (swedbank_get_cdt_trf_tx_inf j p) = [formatAmount p.amount] := by
  unfold txInstdAmtTexts swedbank_get_cdt_trf_tx_inf
  rw [show taggedChildren "Amt" = fun x => x.children.filter (fun c => c.tag == "Amt") from rfl]
  simp only [el_children, List.filter_append]
  rw [filter_toList_tag_ne (o := swedbank_get_cdtr_agt p)
    (fun x hx => by rw [swedbank_get_cdtr_agt_tag hx]; rfl)]
  rw [filter_toList_tag_ne (o := swedbank_get_cdtr_acct p)
    (fun x hx => by rw [swedbank_get_cdtr_acct_tag hx]; rfl)]
  rw [filter_toList_tag_ne (o := swedbank_get_rmt_inf p)
    (fun x hx => by rw [swedbank_get_rmt_inf_tag hx]; rfl)]
  simp only [List.filter_cons, List.filter_nil, el_tag, swedbank_get_cdtr_tag]
  simp [taggedChildren, el_children, mk_tag, mk_text, List.filter_cons]

theorem docGrpHdrs_build (j : Journal) (ps : List Payment) (now today : String) :
    docGrpHdrs (swedbank_build_document j ps now today)
      = [swedbank_get_grp_hdr j now ps] := by
  unfold docGrpHdrs swedbank_build_document taggedChildren
  simp only [mk_children, List.filter_cons, List.filter_nil, el_tag]
  simp only [show ("CstmrCdtTrfInitn" == "CstmrCdtTrfInitn") = true from rfl, if_true,
    List.flatMap_cons, List.flatMap_nil, List.append_nil, el_children]
  rw [List.filter_cons]
  simp only [swedbank_get_grp_hdr_tag]
  rw [filter_tag_map_eq_nil (fun g => swedbank_get_pmt_inf j now g.2 g.1) "GrpHdr"
    (fun a => rfl) (swedbank_group_payments j today ps)]
  simp

theorem docPmtInfs_build (j : Journal) (ps : List Payment) (now today : String) :
    docPmtInfs (swedbank_build_document j ps now today)
      = (swedbank_group_payments j today ps).map
          (fun g => swedbank_get_pmt_inf j now g.2 g.1) := by
  unfold docPmtInfs swedbank_build_document taggedChildren
  simp only [mk_children, List.filter_cons, List.filter_nil, el_tag]
  simp only [show ("CstmrCdtTrfInitn" == "CstmrCdtTrfInitn") = true from rfl, if_true,
    List.flatMap_cons, List.flatMap_nil, List.append_nil, el_children]
  rw [List.filter_cons]
  simp only [swedbank_get_grp_hdr_tag]
  rw [filter_tag_map_eq_map (fun g => swedbank_get_pmt_inf j now g.2 g.1) "PmtInf"
    (fun a => rfl) (swedbank_group_payments j today ps)]
  simp

theorem docTxInfs_build (j : Journal) (ps : List Payment) (now today : String) :
    docTxInfs (swedbank_build_document j ps now today)
      = (swedbank_group_payments j today ps).flatMap
          (fun g => g.2.map (swedbank_get_cdt_trf_tx_inf j)) := by
  unfold docTxInfs
  rw [docPmtInfs_build]
  rw [List.flatMap_map]
  congr 1
  funext g
  exact taggedChildren_pmt_inf_tx j now g.2 g.1

theorem instdAmtTexts_build (j : Journal) (ps : List Payment) (now today : String) :
    instdAmtTexts (swedbank_build_document j ps now today)
      = (groupsFlat (swedbank_group_payments j today ps)).map
          (fun p => formatAmount p.amount) := by
  unfold instdAmtTexts
  rw [docTxInfs_build, List.flatMap_assoc]
  unfold groupsFlat
  rw [List.map_flatMap]
  congr 1
  funext g
  rw [List.flatMap_map]
  have h1 : (fun a => txInstdAmtTexts (swedbank_get_cdt_trf_tx_inf j a))
      = fun a => [formatAmount a.amount] := by
    funext a
    exact txInstdAmtTexts_cdt j a
  rw [h1, flatMap_singleton_fn]

theorem create_ok_doc {j : Journal} {ps : List Payment} {now today : String} {doc : Xml}
    (h : create_swedbank_credit_transfer j ps now today = Except.ok doc) :
    doc = swedbank_build_document j ps now today := by
  unfold create_swedbank_credit_transfer at h
  split at h
  · exact absurd h (by simp)
  · split at h
    · exact absurd h (by simp)
    · split at h
      · exact absurd h (by simp)
      · simp only [Except.ok.injEq] at h
        exact h.symm

/-! ## Concrete records for counterexamples and witnesses -/

/-- Creditor partner of the end-to-end scenario. -/
def c2Partner : Partner :=
  { name := "Test Supplier AB", street := some "Leverantorsgatan 5",
    zip := some "41101", city := some "Goteborg", country_code := some "SE" }

/-- Company of the end-to-end scenario. -/
def c2Company : Company :=
  { id := 1, name := "Test Company AB", street := some "Testgatan 1",
    city := some "Stockholm", zip := some "11122", country_code := some "SE",
    currency := { name := "SEK" } }

/-- Debtor bank account of the end-to-end scenario (the IBAN of the spec). -/
def c2BankAccount : BankAccount :=
  { id := 10, acc_number := some "SE4550000000058398257466", acc_type := "iban",
    currency := none }

/-- Journal of the end-to-end scenario: agreement ID 123456789012A001. -/
def c2Journal : Journal :=
  { id := 5, name := "Swedbank", swedbank_agreement_id := some "123456789012A001",
    bank_account := some c2BankAccount, swedbank_service_level := some "NURG",
    swedbank_category_purpose := some "SUPP", swedbank_charge_bearer := some "SHAR",
    currency := none, company := c2Company }

/-- Creditor bank account of the end-to-end scenario: number 12345678 with
clearing code 9900, not an IBAN. -/
def c2PartnerBank : PartnerBank :=
  { acc_number := some "12345678", acc_type := "bank",
    swedbank_clearing_code := some "9900", bank := none }

/-- The single payment of the end-to-end scenario: 1000.00. -/
def c2Payment : Payment :=
  { id := 1, name := some "PAY0001", partner := some c2Partner, amount := 100000,
    currency := { name := "SEK" }, partner_bank := some c2PartnerBank,
    date := some "2026-01-15", ref := some "INV-001", memo := none,
    swedbank_service_level := none, swedbank_category_purpose := none,
    swedbank_charge_bearer := none,
    fallback_uuid := "00000000-0000-4000-8000-000000000000" }

/-- Generation result for the end-to-end scenario. -/
def c2Result : Except SwedError Xml :=
  create_swedbank_credit_transfer c2Journal [c2Payment] "20260115T120000" "2026-01-15"

/-- SEPA journal for the C1 scenario (same configuration, SEPA service
level). -/
def c1Journal : Journal :=
  { id := 5, name := "Swedbank", swedbank_agreement_id := some "123456789012A001",
    bank_account := some c2BankAccount, swedbank_service_level := some "SEPA",
    swedbank_category_purpose := some "SUPP", swedbank_charge_bearer := some "SHAR",
    currency := none, company := c2Company }

/-- Non-IBAN creditor account used in the C1 scenario. -/
def c1PartnerBank : PartnerBank :=
  { acc_number := some "12345678", acc_type := "bank",
    swedbank_clearing_code := some "9900", bank := none }

/-- EUR payment to a non-IBAN creditor account (C1 scenario). -/
def c1Payment : Payment :=
  { id := 2, name := some "PAY0002", partner := some c2Partner, amount := 100000,
    currency := { name := "EUR" }, partner_bank := some c1PartnerBank,
    date := some "2026-01-15", ref := some "INV-002", memo := none,
    swedbank_service_level := none, swedbank_category_purpose := none,
    swedbank_charge_bearer := none,
    fallback_uuid := "00000000-0000-4000-8000-000000000001" }

/-- Generation result for the C1 scenario. -/
def c1Result : Except SwedError Xml :=
  create_swedbank_credit_transfer c1Journal [c1Payment] "20260115T120000" "2026-01-15"

/-- Journal for the C3 scenario: default service level NURG. -/
def c3Journal : Journal :=
  { id := 5, name := "Swedbank", swedbank_agreement_id := some "123456789012A001",
    bank_account := some c2BankAccount, swedbank_service_level := some "NURG",
    swedbank_category_purpose := some "SUPP", swedbank_charge_bearer := some "SHAR",
    currency := none, company := c2Company }

/-- Payment with an instruction-level service level override (C3). -/
def c3Payment : Payment :=
  { id := 3, name := some "PAY0003", partner := some c2Partner, amount := 100000,
    currency := { name := "SEK" }, partner_bank := none,
    date := some "2026-01-15", ref := none, memo := none,
    swedbank_service_level := some "URGP", swedbank_category_purpose := some "TREA",
    swedbank_charge_bearer := none,
    fallback_uuid := "00000000-0000-4000-8000-000000000003" }

/-- Payment without a partner (first offender in the C7 scenario). -/
def c7PayOne : Payment :=
  { id := 7, name := some "Payment One", partner := none, amount := 50000,
    currency := { name := "SEK" }, partner_bank := none,
    date := some "2026-01-15", ref := none, memo := none,
    swedbank_service_level := none, swedbank_category_purpose := none,
    swedbank_charge_bearer := none,
    fallback_uuid := "00000000-0000-4000-8000-000000000007" }

/-- Zero-amount payment (the C7 claim's subject). -/
def c7PayZero : Payment :=
  { id := 8, name := some "Payment Zero", partner := some c2Partner, amount := 0,
    currency := { name := "SEK" }, partner_bank := none,
    date := some "2026-01-15", ref := none, memo := none,
    swedbank_service_level := none, swedbank_category_purpose := none,
    swedbank_charge_bearer := none,
    fallback_uuid := "00000000-0000-4000-8000-000000000008" }

/-- Second payment on a later execution date (C4 witness: two groups). -/
def c4Pay2 : Payment :=
  { id := 4, name := some "PAY0004", partner := some c2Partner, amount := 250075,
    currency := { name := "SEK" }, partner_bank := some c2PartnerBank,
    date := some "2026-01-16", ref := some "INV-004", memo := none,
    swedbank_service_level := none, swedbank_category_purpose := none,
    swedbank_charge_bearer := none,
    fallback_uuid := "00000000-0000-4000-8000-000000000004" }

/-- The document of the C4 witness batch. -/
def c4Doc : Xml :=
  swedbank_build_document c2Journal [c2Payment, c4Pay2] "20260201T090000" "2026-02-01"

/-! ## Claim theorems -/

/-- C5: for every input string, every max length and either setting of the
extended-letter flag, the output of `_swedbank_sanitize_text` contains no
occurrence of the substring of two consecutive slashes (`hasDoubleSlash`,
shown equivalent to substring containment in `hasDoubleSlash_iff`) and has
length at most the requested max length. -/
theorem swedbank_sanitize_text_no_double_slash_and_bounded
    (t : List Char) (n : Nat) (sw : Bool) :
    hasDoubleSlash (swedbank_sanitize_text t n sw) = false ∧
    (swedbank_sanitize_text t n sw).length ≤ n :=
  ⟨swedbank_sanitize_text_no_ds t n sw, swedbank_sanitize_text_length_le t n sw⟩

/-- C6: for every input string and max length, the output of
`_swedbank_sanitize_id` neither starts nor ends with a slash, and every
character of the output belongs to the Latin base character set (so no
Swedish extended letter survives: those are not in `isSwedbankLatin`). -/
theorem swedbank_sanitize_id_well_formed (t : List Char) (n : Nat) :
    startsWithSlash (swedbank_sanitize_id t n) = false ∧
    endsWithSlash (swedbank_sanitize_id t n) = false ∧
    (swedbank_sanitize_id t n).all isSwedbankLatin = true :=
  ⟨swedbank_sanitize_id_starts t n, swedbank_sanitize_id_ends t n,
   List.all_eq_true.mpr (fun _ hx => swedbank_sanitize_id_latin hx)⟩

/-- C9: the identifier sanitizer is idempotent — applying
`_swedbank_sanitize_id` with the same max length to its own output returns
that output unchanged. -/
theorem swedbank_sanitize_id_idempotent (t : List Char) (n : Nat) :
    swedbank_sanitize_id (swedbank_sanitize_id t n) n = swedbank_sanitize_id t n :=
  swedbank_sanitize_id_fixed
    (fun _ hc => swedbank_sanitize_id_latin hc)
    (swedbank_sanitize_id_starts t n)
    (swedbank_sanitize_id_ends t n)
    (swedbank_sanitize_id_no_ds t n)
    (swedbank_sanitize_id_length_le t n)

/-- C2 counterexample: on the spec's end-to-end input (account 12345678
with clearing code 9900), generation succeeds but the creditor account
scheme element is `Cd` with text `BBAN`, not `Prtry` with text `BGNR` — the
classifier assigns `bban` because a clearing code is present, so the
claimed `Prtry=BGNR` element does not exist in the document. -/
theorem swedbank_c2_scheme_is_bban_not_bgnr :
    c2Result.toOption.isSome = true ∧
    c2Result.toOption.map cdtrAcctSchemes = some [("Cd", some "BBAN")] ∧
    compute_swedbank_account_type c2PartnerBank = some SwedAcctType.bban :=
  ⟨rfl, rfl, rfl⟩

/-- C2 amended: on the end-to-end input, generation succeeds and the
document carries the pain.001.001.03 namespace, exactly one `PmtInf`,
exactly one `CdtTrfTxInf` whose `InstdAmt` text is 1000.00, and the
creditor account scheme element is `Cd` with text `BBAN` (the account is
classified `bban`, not `bankgiro`, because its clearing code is set). -/
theorem swedbank_c2_amended_scenario :
    c2Result.toOption.map
      (fun d => (rootXmlns d, (docPmtInfs d).length, (docTxInfs d).length,
                 instdAmtTexts d, cdtrAcctSchemes d))
      = some (some painNamespace, 1, 1, ["1000.00"], [("Cd", some "BBAN")]) := rfl

/-- C3: the `PmtTpInf` builder receives the instruction but emits the
journal's configured defaults — here the payment's instruction-level
service level is URGP (and category purpose TREA), yet the emitted service
level code is the journal's NURG: the instruction-level override declared
on the payment model is never read by the document builder. -/
theorem swedbank_c3_instruction_override_ignored :
    c3Payment.swedbank_service_level = some "URGP" ∧
    c3Journal.swedbank_service_level = some "NURG" ∧
    svcLvlCodes (swedbank_get_pmt_tp_inf c3Journal (some c3Payment)) = ["NURG"] :=
  ⟨rfl, rfl, rfl⟩

/-- C1 counterexample: a SEPA journal and an EUR payment whose creditor
bank account is not an IBAN — the validator invoked from
`create_swedbank_credit_transfer` accepts the batch and a document is
produced, contradicting the claim that validation fails and no document is
produced. -/
theorem swedbank_c1_document_produced_despite_non_iban :
    c1Journal.swedbank_service_level = some "SEPA" ∧
    c1Payment.partner_bank = some c1PartnerBank ∧
    (c1PartnerBank.acc_type == "iban") = false ∧
    c1Result.toOption.isSome = true :=
  ⟨rfl, rfl, rfl, rfl⟩

/-- C1 amended: the IBAN-for-SEPA requirement is enforced by the
batch-level validator (`_swedbank_validate_batch`), which fails with an
error naming the payment; the validator invoked from the document builder
checks only partner, amount and currency, so generation itself still
produces a document for such a payment. -/
theorem swedbank_c1_sepa_iban_enforced_by_batch_validator
    (j : Journal) (p : Payment) (pb : PartnerBank) (now today : String)
    (hagr : j.swedbank_agreement_id.isSome = true)
    (hbank : j.bank_account.isSome = true)
    (hsepa : j.swedbank_service_level = some "SEPA")
    (hpartner : p.partner.isSome = true)
    (hamt : 0 < p.amount)
    (hcur : p.currency.name = "EUR")
    (hpb : p.partner_bank = some pb)
    (hiban : (pb.acc_type == "iban") = false) :
    swedbank_validate_batch j [p] = Except.error (SwedError.sepaIbanRequired p.name) ∧
    (create_swedbank_credit_transfer j [p] now today).toOption.isSome = true := by
  obtain ⟨a, ha⟩ := Option.isSome_iff_exists.mp hagr
  obtain ⟨b, hb⟩ := Option.isSome_iff_exists.mp hbank
  obtain ⟨pr, hpr⟩ := Option.isSome_iff_exists.mp hpartner
  have hamt' : ¬(p.amount ≤ 0) := by omega
  have hiban' : pb.acc_type ≠ "iban" := by simpa using hiban
  constructor
  · unfold swedbank_validate_batch swedbank_validate_batch_payments
      swedbank_check_batch_payment
    simp [ha, hb, hpr, hsepa, hcur, hpb, hamt', hiban']
  · unfold create_swedbank_credit_transfer
    simp [ha, hb, hpr, hsepa, hcur, hamt', swedbank_validate_payments,
      swedbank_check_payment, Except.toOption]

/-- C1 witness: the amended theorem applied to the concrete SEPA scenario. -/
theorem swedbank_c1_witness :
    swedbank_validate_batch c1Journal [c1Payment]
      = Except.error (SwedError.sepaIbanRequired c1Payment.name) ∧
    (create_swedbank_credit_transfer c1Journal [c1Payment]
      "20260115T120000" "2026-01-15").toOption.isSome = true :=
  swedbank_c1_sepa_iban_enforced_by_batch_validator c1Journal c1Payment c1PartnerBank
    "20260115T120000" "2026-01-15" rfl rfl rfl rfl (by decide) rfl rfl rfl

/-- C4: for every batch the builder accepts, the group header control sum
text is the 2-decimal rendering of the batch total, the `PmtInf` control
sum texts are the renderings of the per-group totals whose (exact, in
cents) sum equals the batch total, the instructed amount texts are the
renderings of the individual payment amounts in group order, and the
payment groups partition the batch. -/
theorem swedbank_control_sums_consistent
    (j : Journal) (ps : List Payment) (now today : String) (doc : Xml)
    (h : create_swedbank_credit_transfer j ps now today = Except.ok doc) :
    (docGrpHdrs doc).flatMap ctrlSumTexts = [formatAmount (sumAmounts ps)] ∧
    (docPmtInfs doc).flatMap ctrlSumTexts
      = (swedbank_group_payments j today ps).map
          (fun g => formatAmount (sumAmounts g.2)) ∧
    ((swedbank_group_payments j today ps).map (fun g => sumAmounts g.2)).sum
      = sumAmounts ps ∧
    instdAmtTexts doc
      = (groupsFlat (swedbank_group_payments j today ps)).map
          (fun p => formatAmount p.amount) ∧
    List.Perm (groupsFlat (swedbank_group_payments j today ps)) ps := by
  have hdoc := create_ok_doc h
  subst hdoc
  refine ⟨?_, ?_, ?_, ?_, ?_⟩
  · rw [docGrpHdrs_build]
    simp [ctrlSumTexts_grp_hdr]
  · rw [docPmtInfs_build, List.flatMap_map]
    have h1 : (fun g : (Nat × String) × List Payment =>
        ctrlSumTexts (swedbank_get_pmt_inf j now g.2 g.1))
        = fun g => [formatAmount (sumAmounts g.2)] := by
      funext g
      exact ctrlSumTexts_pmt_inf j now g.2 g.1
    rw [h1, flatMap_singleton_fn]
  · exact swedbank_group_payments_sum j today ps
  · exact instdAmtTexts_build j ps now today
  · exact swedbank_group_payments_perm j today ps

/-- C4 witness: the control-sum theorem applied to a concrete two-group
batch (1000.00 on 2026-01-15 and 2500.75 on 2026-01-16). -/
theorem swedbank_c4_witness :
    (docGrpHdrs c4Doc).flatMap ctrlSumTexts
      = [formatAmount (sumAmounts [c2Payment, c4Pay2])] ∧
    (docPmtInfs c4Doc).flatMap ctrlSumTexts
      = (swedbank_group_payments c2Journal "2026-02-01" [c2Payment, c4Pay2]).map
          (fun g => formatAmount (sumAmounts g.2)) ∧
    ((swedbank_group_payments c2Journal "2026-02-01" [c2Payment, c4Pay2]).map
        (fun g => sumAmounts g.2)).sum = sumAmounts [c2Payment, c4Pay2] ∧
    instdAmtTexts c4Doc
      = (groupsFlat (swedbank_group_payments c2Journal "2026-02-01"
          [c2Payment, c4Pay2])).map (fun p => formatAmount p.amount) ∧
    List.Perm
      (groupsFlat (swedbank_group_payments c2Journal "2026-02-01"
        [c2Payment, c4Pay2]))
      [c2Payment, c4Pay2] :=
  swedbank_control_sums_consistent c2Journal [c2Payment, c4Pay2]
    "20260201T090000" "2026-02-01" c4Doc rfl

/-- C7 counterexample: in a batch whose first payment has no partner and
whose second payment has amount 0, generation raises the missing-partner
error naming the first payment — the error does not reference the
zero-amount payment's display name, contrary to the claim as stated. -/
theorem swedbank_c7_error_names_first_offender :
    c7PayZero.amount ≤ 0 ∧
    create_swedbank_credit_transfer c2Journal [c7PayOne, c7PayZero]
        "20260115T120000" "2026-01-15"
      = Except.error (SwedError.noPartner (some "Payment One")) :=
  ⟨by decide, rfl⟩

/-- C7 amended: a batch containing a payment with amount at most 0 never
yields a document, and the error is raised by validation before any XML
element is constructed; the error names the zero-amount payment exactly
when that payment is the first one to violate a check (configuration
present, all earlier payments valid, partner present). -/
theorem swedbank_c7_nonpositive_amount_rejected
    (j : Journal) (pre post qs : List Payment) (p : Payment) (now today : String)
    (hagr : j.swedbank_agreement_id.isSome = true)
    (hbank : j.bank_account.isSome = true)
    (hpre : ∀ q ∈ pre, swedbank_check_payment j q = Except.ok ())
    (hpartner : p.partner.isSome = true)
    (hamt : p.amount ≤ 0)
    (hqs : p ∈ qs) :
    create_swedbank_credit_transfer j (pre ++ p :: post) now today
      = Except.error (SwedError.invalidAmount p.name) ∧
    (create_swedbank_credit_transfer j qs now today).toOption = none := by
  obtain ⟨a, ha⟩ := Option.isSome_iff_exists.mp hagr
  obtain ⟨b, hb⟩ := Option.isSome_iff_exists.mp hbank
  constructor
  · unfold create_swedbank_credit_transfer
    rw [ha, hb]
    rw [swedbank_validate_payments_append_ok hpre]
    have hchk := swedbank_check_payment_nonpos (j := j) hpartner hamt
    simp [swedbank_validate_payments, hchk]
  · rcases swedbank_check_payment_nonpos_error (j := j) hamt with ⟨e, he⟩
    rcases swedbank_validate_payments_error_of_mem he qs hqs with ⟨e', he'⟩
    unfold create_swedbank_credit_transfer
    rw [ha, hb, he']
    rfl

/-- C7 witness: the amended theorem applied to the concrete batch whose
only (hence first-offending) payment has amount 0, with the error-naming
conclusion and the no-document conclusion both instantiated. -/
theorem swedbank_c7_witness :
    create_swedbank_credit_transfer c2Journal ([] ++ c7PayZero :: [])
        "20260115T120000" "2026-01-15"
      = Except.error (SwedError.invalidAmount c7PayZero.name) ∧
    (create_swedbank_credit_transfer c2Journal [c7PayOne, c7PayZero]
        "20260115T120000" "2026-01-15").toOption = none :=
  swedbank_c7_nonpositive_amount_rejected c2Journal [] []
    [c7PayOne, c7PayZero] c7PayZero "20260115T120000" "2026-01-15"
    rfl rfl (by simp) rfl (by decide) (by decide)

/-- C8: when the XSD schema resource cannot be located or parsed (the
schema loader yields nothing), `swedbank_validate_xml` reports valid
together with exactly the single advisory message, and the validated
pipeline still returns the generated document without raising. -/
theorem swedbank_schema_missing_is_advisory
    (j : Journal) (ps : List Payment) (now today : String) (doc : Xml)
    (h : create_swedbank_credit_transfer j ps now today = Except.ok doc) :
    swedbank_validate_xml none doc
      = (true, ["Schema validation skipped - XSD not available"]) ∧
    (swedbank_validate_xml none doc).2.length = 1 ∧
    create_swedbank_credit_transfer_validated none j ps now today
      = Except.ok doc := by
  refine ⟨rfl, rfl, ?_⟩
  unfold create_swedbank_credit_transfer_validated
  rw [h]
  rfl

/-- C8 witness: the advisory-skip theorem applied to the concrete
end-to-end batch. -/
theorem swedbank_c8_witness :
    swedbank_validate_xml none
        (swedbank_build_document c2Journal [c2Payment] "20260115T120000" "2026-01-15")
      = (true, ["Schema validation skipped - XSD not available"]) ∧
    (swedbank_validate_xml none
        (swedbank_build_document c2Journal [c2Payment] "20260115T120000"
          "2026-01-15")).2.length = 1 ∧
    create_swedbank_credit_transfer_validated none c2Journal [c2Payment]
        "20260115T120000" "2026-01-15"
      = Except.ok
          (swedbank_build_document c2Journal [c2Payment] "20260115T120000"
            "2026-01-15") :=
  swedbank_schema_missing_is_advisory c2Journal [c2Payment]
    "20260115T120000" "2026-01-15"
    (swedbank_build_document c2Journal [c2Payment] "20260115T120000" "2026-01-15") rfl

/-- C10: a stored end-to-end id that passes the
`_check_swedbank_end_to_end_id` constraint does not start or end with a
slash, contains no double slash and uses only the Swedbank base character
set; and a payment created without an end-to-end id is assigned the UUID
string truncated to 35 characters, so after create the field is never
empty (a canonical UUID string has 36 characters). -/
theorem swedbank_e2e_id_invariant_and_autofill
    (s : String) (given : Option String) (uuidStr : String)
    (hok : check_swedbank_end_to_end_id (some s) = Except.ok ())
    (hu : uuidStr.data.length = 36) :
    (startsWithSlash s.data = false ∧ endsWithSlash s.data = false ∧
     hasDoubleSlash s.data = false ∧ s.data.all isSwedbankLatin = true) ∧
    payment_create_fill_e2e none uuidStr = String.mk (uuidStr.data.take 35) ∧
    payment_create_fill_e2e given uuidStr ≠ "" := by
  have hfill_ne : String.mk (uuidStr.data.take 35) ≠ "" := by
    intro heq
    have hlen : (uuidStr.data.take 35).length = 35 := by
      rw [List.length_take, hu]
      decide
    have hdata := congrArg String.data heq
    simp only at hdata
    rw [hdata] at hlen
    simp at hlen
  refine ⟨?_, rfl, ?_⟩
  · by_cases hs : (s == "") = true
    · have hs' : s = "" := by simpa using hs
      subst hs'
      exact ⟨rfl, rfl, rfl, rfl⟩
    · have hs0 : (s == "") = false := by simpa using hs
      unfold check_swedbank_end_to_end_id at hok
      cases hA : (startsWithSlash s.data || endsWithSlash s.data) with
      | true => simp [hs0, hA] at hok
      | false =>
        cases hB : hasDoubleSlash s.data with
        | true => simp [hs0, hA, hB] at hok
        | false =>
          cases hC : s.data.all isSwedbankLatin with
          | false => simp [hs0, hA, hB, hC] at hok
          | true =>
            have h1 : startsWithSlash s.data = false := by
              cases h : startsWithSlash s.data
              · rfl
              · rw [h] at hA
                simp at hA
            have h2 : endsWithSlash s.data = false := by
              cases h : endsWithSlash s.data
              · rfl
              · rw [h] at hA
                simp at hA
            exact ⟨h1, h2, rfl, rfl⟩
  · cases given with
    | none => exact hfill_ne
    | some sv =>
      show (if (sv == "") = true then String.mk (uuidStr.data.take 35) else sv) ≠ ""
      by_cases hsv : (sv == "") = true
      · rw [if_pos hsv]
        exact hfill_ne
      · rw [if_neg hsv]
        simpa using hsv

/-- C10 witness: the invariant-and-autofill theorem applied to a concrete
passing end-to-end id, a concrete given value and a canonical UUID
string. -/
theorem swedbank_c10_witness :
    (startsWithSlash ("INV-2026/001" : String).data = false ∧
     endsWithSlash ("INV-2026/001" : String).data = false ∧
     hasDoubleSlash ("INV-2026/001" : String).data = false ∧
     ("INV-2026/001" : String).data.all isSwedbankLatin = true) ∧
    payment_create_fill_e2e none "00000000-0000-4000-8000-000000000000"
      = String.mk (("00000000-0000-4000-8000-000000000000" : String).data.take 35) ∧
    payment_create_fill_e2e (some "GIVEN-1") "00000000-0000-4000-8000-000000000000"
      ≠ "" :=
  swedbank_e2e_id_invariant_and_autofill "INV-2026/001" (some "GIVEN-1")
    "00000000-0000-4000-8000-000000000000" rfl (by decide)
